import Mathlib

/-!
Verification development for the WordPress publishing adapter and project-file
parser of `src/main.py` (AI Content Agent Pro).

The Python code is shallowly embedded: each method of `AdvancedPublisher`
(and `CompleteAIContentAgent.parse_project_files`) becomes a pure Lean
function.  Network I/O is modelled by passing the HTTP response(s) a call
would receive as explicit arguments (for `test_wordpress_connection`, an
oracle `net : String → HttpResponse` from request URL to response, together
with the list of URLs actually requested, so that "the fallback request is
never issued" is expressible).  JSON bodies of responses are modelled as
already-decoded fields of `HttpResponse` (the fields the code reads:
`name`, `id`, `link`/`URL`, `source_url`, and the term list).  Python dicts
are association lists with insert-or-overwrite semantics; Python's `None`
becomes `Option`; Python truthiness of strings / lists / optional ints is
translated explicitly at each use site.  Streamlit `st.warning` / `st.error`
side effects are collected as lists of message strings.  Uncaught Python
exceptions (`KeyError`, `ValueError`) are modelled with `Except`.
-/

set_option autoImplicit false

namespace ContentGen

/-- `startsChars p l` is true when the character list `p` is an initial
segment of `l` (embeds Python `str.startswith` on the underlying text). -/
def startsChars : List Char → List Char → Bool
  | [], _ => true
  | _ :: _, [] => false
  | a :: p, b :: l => a = b && startsChars p l

/-- `occursChars p l`: the character list `p` occurs contiguously inside `l`
(embeds Python's substring test `p in l`). -/
def occursChars (p : List Char) : List Char → Bool
  | [] => startsChars p []
  | c :: l => startsChars p (c :: l) || occursChars p l

/-- Substring test on strings, embedding Python's `pat in s`. -/
def strHasSub (s pat : String) : Bool :=
  occursChars pat.toList s.toList

/-- Python `str.lower()` (character-wise lowering; the embedded inputs are
ASCII, where `Char.toLower` and Python agree). -/
def strLower (s : String) : String :=
  String.mk (s.toList.map Char.toLower)

/-- Python `str.startswith(pat)`. -/
def strStartsWith (s pat : String) : Bool :=
  startsChars pat.toList s.toList

/-- Python `str.endswith(pat)`. -/
def strEndsWith (s pat : String) : Bool :=
  startsChars pat.toList.reverse s.toList.reverse

/-- Replacement loop of Python `str.replace(pat, rep)`: leftmost
non-overlapping occurrences, scanning left to right.  `fuel` bounds the
recursion (one character is consumed per step). -/
def replaceChars (pat rep : List Char) : Nat → List Char → List Char
  | _, [] => []
  | 0, l => l
  | fuel + 1, c :: rest =>
    if pat ≠ [] ∧ startsChars pat (c :: rest) then
      rep ++ replaceChars pat rep fuel ((c :: rest).drop pat.length)
    else
      c :: replaceChars pat rep fuel rest

/-- Python `s.replace(pat, rep)` for a non-empty pattern (every use in the
embedded code has a non-empty literal pattern). -/
def pyReplace (s pat rep : String) : String :=
  String.mk (replaceChars pat.toList rep.toList s.toList.length s.toList)

/-- Python `s.split('\n')`: split at every newline, keeping empty pieces. -/
def splitOnNl : List Char → List (List Char)
  | [] => [[]]
  | c :: rest =>
    if c = '\n' then [] :: splitOnNl rest
    else
      match splitOnNl rest with
      | a :: as => (c :: a) :: as
      | [] => [[c]]

/-- The UTF-8 encoding of one character as byte values (as Python
`str.encode()` produces before base64). -/
def utf8Bytes (c : Char) : List Nat :=
  let n := c.toNat
  if n < 128 then [n]
  else if n < 2048 then [192 + n / 64, 128 + n % 64]
  else if n < 65536 then [224 + n / 4096, 128 + n / 64 % 64, 128 + n % 64]
  else [240 + n / 262144, 128 + n / 4096 % 64, 128 + n / 64 % 64, 128 + n % 64]

/-- The Python `\s` class restricted to ASCII (the only characters the
embedded inputs use): space, tab, newline, carriage return, vertical tab,
form feed. -/
def isSpaceChar (c : Char) : Bool :=
  c = ' ' || c = '\t' || c = '\n' || c = '\r' || c = '\x0b' || c = '\x0c'

/-- ASCII letters and digits: the `[a-zA-Z0-9]` class of the strict
file-block pattern. -/
def isAlnumAscii (c : Char) : Bool :=
  ('a' ≤ c && c ≤ 'z') || ('A' ≤ c && c ≤ 'Z') || ('0' ≤ c && c ≤ '9')

/-- Python `str.strip()` (whitespace from both ends), on ASCII whitespace. -/
def pyStrip (s : String) : String :=
  String.mk (((s.toList.dropWhile isSpaceChar).reverse.dropWhile isSpaceChar).reverse)

/-- Python `str.rstrip('/')`: remove trailing slashes. -/
def pyRstripSlash (s : String) : String :=
  String.mk ((s.toList.reverse.dropWhile (fun c => c = '/')).reverse)

/-- The base64 alphabet, indexed by 6-bit value. -/
def b64Alphabet : List Char :=
  "ABCDEFGHIJKLMNOPQRSTUVWXYZabcdefghijklmnopqrstuvwxyz0123456789+/".toList

/-- Character of the base64 alphabet at a 6-bit index. -/
def b64Char (n : Nat) : Char :=
  b64Alphabet.getD n 'A'

/-- Standard base64 of a byte list, with `=` padding (embeds
`base64.b64encode`). -/
def b64encodeBytes : List Nat → List Char
  | [] => []
  | [a] => [b64Char (a / 4), b64Char (a % 4 * 16), '=', '=']
  | [a, b] => [b64Char (a / 4), b64Char (a % 4 * 16 + b / 16), b64Char (b % 16 * 4), '=']
  | a :: b :: c :: rest =>
    b64Char (a / 4) :: b64Char (a % 4 * 16 + b / 16) ::
      b64Char (b % 16 * 4 + c / 64) :: b64Char (c % 64) :: b64encodeBytes rest

/-- Base64 of the UTF-8 encoding of a string (embeds
`base64.b64encode(s.encode()).decode()`). -/
def b64encode (s : String) : String :=
  String.mk (b64encodeBytes ((s.toList.map utf8Bytes).flatten))

/-- Python-dict insertion on an association list: overwrite in place when
the key is present (preserving position), append otherwise. -/
def dictInsert {α : Type} (d : List (String × α)) (k : String) (v : α) :
    List (String × α) :=
  if d.any (fun p => p.1 = k) then
    d.map (fun p => if p.1 = k then (k, v) else p)
  else
    d ++ [(k, v)]

/-- Python-dict lookup on an association list. -/
def dictGet {α : Type} (d : List (String × α)) (k : String) : Option α :=
  (d.find? (fun p => p.1 = k)).map Prod.snd

/-- A WordPress taxonomy term as the code caches it: `{'id': …, 'name': …}`. -/
structure Term where
  id : Nat
  name : String
deriving DecidableEq, Repr

/-- The decoded fields of an HTTP response that the code reads.  `status`
and `text` are `response.status_code` / `response.text`; the remaining
fields model the already-parsed JSON body: `name` is
`json.get('name', 'Unknown')` of a user/site object, `id` and `url` are the
post/media id and `link`/`URL`/`source_url` fields, `terms` is the decoded
list of a terms response. -/
structure HttpResponse where
  status : Nat
  text : String
  name : String
  id : Nat
  url : String
  terms : List Term
deriving DecidableEq, Repr

/-- The `wordpress_config` dict built by `setup_wordpress` (fields that are
absent for one of the two modes are carried with their Python-`.get`
defaults: `use_query_params` is `none` when unset, `api_base` is only read
when `is_wpcom`). -/
structure WpConfig where
  site_url : String
  username : String
  password : String
  is_wpcom : Bool
  use_query_params : Option Bool
  api_base : String
  headers : List (String × String)
deriving DecidableEq, Repr

/-- Uncaught Python exceptions the embedded code can raise. -/
inductive PyExn where
  | keyError (key : String)
  | valueError (msg : String)
deriving DecidableEq, Repr

/-- `AdvancedPublisher.setup_wordpress` (src/main.py lines 33-62): classify
the site as WordPress.com when the lowered URL contains `wordpress.com`,
and build the fixed header set (Bearer token vs. HTTP Basic). -/
def setup_wordpress (site_url username password : String) : WpConfig :=
  if strHasSub (strLower site_url) "wordpress.com" then
    { site_url := pyRstripSlash site_url
      username := username
      password := password
      is_wpcom := true
      use_query_params := none
      api_base := "https://public-api.wordpress.com/rest/v1.1/sites/" ++
        pyRstripSlash (pyReplace (pyReplace site_url "https://" "") "http://" "")
      headers := [("Content-Type", "application/json"),
                  ("Authorization", "Bearer " ++ password)] }
  else
    { site_url := pyRstripSlash site_url
      username := username
      password := password
      is_wpcom := false
      use_query_params := none
      api_base := ""
      headers := [("Content-Type", "application/json"),
                  ("Authorization",
                    "Basic " ++ b64encode (username ++ ":" ++ password))] }

/-- `AdvancedPublisher._get_api_url` (lines 64-79) on a populated config:
fixed base + endpoint for WordPress.com; for self-hosted, the
query-parameter form when `use_query_params` is detected `True`
(`dict.get('use_query_params', False)` is falsy for both `None` and
`False`), otherwise the pretty `/wp-json` form. -/
def get_api_url (cfg : WpConfig) (endpoint : String) : String :=
  if cfg.is_wpcom then
    cfg.api_base ++ endpoint
  else if cfg.use_query_params.getD false then
    cfg.site_url ++ "/?rest_route=" ++ endpoint
  else
    cfg.site_url ++ "/wp-json" ++ endpoint

/-- `_get_api_url` including its guard (line 66-67): on an empty
`wordpress_config` dict it raises `ValueError`. -/
def get_api_url_checked (p : Option WpConfig) (endpoint : String) :
    Except PyExn String :=
  match p with
  | none => .error (.valueError "WordPress configuration not set.")
  | some cfg => .ok (get_api_url cfg endpoint)

/-- Result dict of `test_wordpress_connection`: `{'success': True,
'message': …}` or `{'success': False, 'error': …}`. -/
inductive ConnResult where
  | ok (message : String)
  | err (error : String)
deriving DecidableEq, Repr

/-- `AdvancedPublisher.test_wordpress_connection` (lines 81-158).  `p` is
the configuration (`none` = empty `wordpress_config` dict); `net` maps each
requested URL to the response delivered.  Returns the result dict, the
configuration after the call (the self-hosted probe writes
`use_query_params`), and the list of URLs requested in order — so that
which probes were issued is part of the embedded behaviour.  The `Accept`
header added to a local copy of the headers for the probes does not touch
the stored config and is not modelled further. -/
def test_wordpress_connection (p : Option WpConfig)
    (net : String → HttpResponse) :
    ConnResult × Option WpConfig × List String :=
  match p with
  | none => (.err "WordPress not configured", none, [])
  | some cfg =>
    if cfg.is_wpcom then
      let url := get_api_url cfg "/"
      let r := net url
      if r.status = 200 then
        (.ok ("Connected to WordPress.com site: " ++ r.name), some cfg, [url])
      else if r.status = 403 then
        (.err "WordPress.com site is private or in Coming Soon mode. Please make your site public first.",
         some cfg, [url])
      else
        (.err ("WordPress.com API error: " ++ toString r.status ++ " - " ++ r.text),
         some cfg, [url])
    else
      let pretty_url := get_api_url cfg "/wp/v2/users/me"
      let r1 := net pretty_url
      if r1.status = 404 then
        let fallback_url := cfg.site_url ++ "/?rest_route=/wp/v2/users/me"
        let r2 := net fallback_url
        if r2.status = 200 then
          (.ok ("Connected as " ++ r2.name ++ " (using query parameter format)"),
           some { cfg with use_query_params := some true },
           [pretty_url, fallback_url])
        else if r2.status = 401 then
          (.err "Authentication failed. Please check your username and application password.",
           some cfg, [pretty_url, fallback_url])
        else
          (.err ("WordPress API error: " ++ toString r2.status ++ " - " ++ r2.text ++
            ". Check if REST API is enabled and credentials are correct."),
           some cfg, [pretty_url, fallback_url])
      else if r1.status = 200 then
        (.ok ("Connected as " ++ r1.name),
         some { cfg with use_query_params := some false }, [pretty_url])
      else if r1.status = 401 then
        (.err "Authentication failed. Please check your username and application password.",
         some cfg, [pretty_url])
      else
        (.err ("WordPress API error: " ++ toString r1.status ++ " - " ++ r1.text ++
          ". Check if REST API is enabled and credentials are correct."),
         some cfg, [pretty_url])

/-- `AdvancedPublisher._get_terms_robust` (lines 160-202).  Returns either
an uncaught exception or `(terms, messages)` where `messages` collects the
`st.warning` / `st.error` texts the call emits.  When `wordpress_config` is
the empty dict, `self.wordpress_config.get('is_wpcom')` is falsy, so the
self-hosted branch runs and `self.wordpress_config['headers']` (line 173,
outside the `try` block) raises an uncaught `KeyError('headers')`. -/
def get_terms_robust (p : Option WpConfig) (resp : HttpResponse)
    (term_type : String) : Except PyExn (List Term × List String) :=
  match p with
  | none => .error (.keyError "headers")
  | some cfg =>
    if cfg.is_wpcom then
      .ok ([], ["Fetching " ++ term_type ++
        " list is not fully supported for WordPress.com via this API configuration."])
    else
      let api_url := get_api_url cfg ("/wp/v2/" ++ term_type)
      if resp.status = 200 then
        .ok (resp.terms.map (fun t => { id := t.id, name := t.name }), [])
      else
        .ok ([], ["Failed to fetch " ++ term_type ++ " from " ++ api_url ++ ": " ++
          toString resp.status ++ " - " ++ resp.text])

/-- Result dict of `upload_image_to_wordpress`. -/
inductive UploadResult where
  | ok (media_id : Nat) (media_url : String) (message : String)
  | err (error : String)
deriving DecidableEq, Repr

/-- Observable behaviour of one `upload_image_to_wordpress` call: the
result, the POST request actually issued (URL and the header set sent with
it, `none` when no request was made), and the stored configuration after
the call (for the frame property: the code only ever mutates a *copy* of
the header dict). -/
structure UploadTrace where
  result : UploadResult
  request : Option (String × List (String × String))
  config : Option WpConfig
deriving DecidableEq, Repr

/-- `AdvancedPublisher.upload_image_to_wordpress` (lines 212-259).  The raw
image bytes do not influence control flow and are not modelled; `resp` is
the response to the single POST. -/
def upload_image_to_wordpress (p : Option WpConfig) (resp : HttpResponse)
    (filename mime_type : String) : UploadTrace :=
  match p with
  | none =>
    { result := .err "WordPress not configured", request := none, config := none }
  | some cfg =>
    if cfg.is_wpcom then
      { result := .err "WordPress.com image upload not fully supported in this version. Try self-hosted WP."
        request := none
        config := some cfg }
    else
      let media_api_url := get_api_url cfg "/wp/v2/media"
      let headers_to_use :=
        dictInsert (dictInsert cfg.headers "Content-Type" mime_type)
          "Content-Disposition" ("attachment; filename=\"" ++ filename ++ "\"")
      if resp.status = 201 then
        { result := .ok resp.id resp.url
            ("Image '" ++ filename ++ "' uploaded successfully to media library.")
          request := some (media_api_url, headers_to_use)
          config := some cfg }
      else
        { result := .err ("Image upload failed: " ++ toString resp.status ++ " - " ++ resp.text)
          request := some (media_api_url, headers_to_use)
          config := some cfg }

/-- A JSON value as it appears in the outgoing post payload: a string, a
number, or an array of term ids. -/
inductive JVal where
  | str (s : String)
  | num (n : Nat)
  | arr (ns : List Nat)
deriving DecidableEq, Repr

/-- Result dict of `publish_to_wordpress`. -/
inductive PublishResult where
  | ok (post_id : Nat) (url : String) (edit_url : String) (message : String)
  | err (error : String)
deriving DecidableEq, Repr

/-- Observable behaviour of one `publish_to_wordpress` call: the result,
the `st.warning` texts emitted (in order), the `post_data` payload sent
(`none` when the early not-configured return fires before a payload
exists), and the URL POSTed to. -/
structure PublishTrace where
  result : PublishResult
  warnings : List String
  payload : Option (List (String × JVal))
  url : Option String
deriving DecidableEq, Repr

/-- The term-name-to-id resolution comprehension of
`publish_to_wordpress` (lines 318-321 for categories, 330-333 for tags):
`[t['id'] for t in cache if t['name'].lower() in [n.lower() for n in names]]`. -/
def resolveTermIds (names : List String) (cache : List Term) : List Nat :=
  (cache.filter (fun t => (names.map strLower).contains (strLower t.name))).map
    (fun t => t.id)

/-- The warning of line 325, emitted when none of the requested category
names resolved. -/
def noCategoriesWarning (categories : List String) : String :=
  "None of the specified categories (" ++ String.intercalate ", " categories ++
    ") were found or selected. Post will be uncategorized or default."

/-- The warning of line 337, emitted when none of the requested tag names
resolved. -/
def noTagsWarning (tags : List String) : String :=
  "None of the specified tags (" ++ String.intercalate ", " tags ++
    ") were found or selected. Post will be published without specified tags."

/-- The warning of line 287: categories are not sent for WordPress.com. -/
def wpcomCategoriesWarning : String :=
  "Categories not directly supported for WordPress.com via this API version's post creation. Post will be uncategorized or default."

/-- `AdvancedPublisher.publish_to_wordpress` (lines 261-377).  `md2html`
stands for the external `markdown.markdown(…, extensions=[…])` library
call; `resp` is the response to the single POST; `sess_cats` / `sess_tags`
are `st.session_state['wp_all_categories']` / `['wp_all_tags']` (the
session term caches, defaulting to `[]`).  `categories`/`tags` of `[]`
embeds Python's falsy `None`/`[]` arguments, and `featured_image_id` of
`none` or `some 0` is falsy at the `if featured_image_id:` test. -/
def publish_to_wordpress (p : Option WpConfig) (md2html : String → String)
    (resp : HttpResponse) (sess_cats sess_tags : List Term)
    (title content status : String) (categories tags : List String)
    (featured_image_id : Option Nat) : PublishTrace :=
  match p with
  | none =>
    { result := .err "WordPress not configured", warnings := [], payload := none, url := none }
  | some cfg =>
    let html_content := md2html content
    let pd0 : List (String × JVal) :=
      [("title", .str title), ("content", .str html_content),
       ("status", .str status), ("format", .str "standard")]
    let pd1 :=
      if featured_image_id.getD 0 ≠ 0 then
        dictInsert pd0 "featured_media" (.num (featured_image_id.getD 0))
      else pd0
    if cfg.is_wpcom then
      let pd2 :=
        if tags ≠ [] then
          dictInsert pd1 "tags" (.str (String.intercalate "," tags))
        else pd1
      let warns := if categories ≠ [] then [wpcomCategoriesWarning] else []
      let url := get_api_url cfg "/posts/new"
      if resp.status = 200 then
        { result := .ok resp.id resp.url
            (cfg.site_url ++ "/wp-admin/post.php?post=" ++ toString resp.id ++ "&action=edit")
            ("Post published successfully to WordPress.com (Status: " ++ status ++ ")")
          warnings := warns, payload := some pd2, url := some url }
      else
        { result := .err ("WordPress.com API error: " ++ toString resp.status ++ " - " ++ resp.text)
          warnings := warns, payload := some pd2, url := some url }
    else
      let selected_category_ids := resolveTermIds categories sess_cats
      let pd2 :=
        if categories ≠ [] then
          if selected_category_ids ≠ [] then
            dictInsert pd1 "categories" (.arr selected_category_ids)
          else pd1
        else pd1
      let w1 : List String :=
        if categories ≠ [] then
          if selected_category_ids ≠ [] then [] else [noCategoriesWarning categories]
        else []
      let selected_tag_ids := resolveTermIds tags sess_tags
      let pd3 :=
        if tags ≠ [] then
          if selected_tag_ids ≠ [] then
            dictInsert pd2 "tags" (.arr selected_tag_ids)
          else pd2
        else pd2
      let w2 : List String :=
        if tags ≠ [] then
          if selected_tag_ids ≠ [] then [] else [noTagsWarning tags]
        else []
      let url := get_api_url cfg "/wp/v2/posts"
      if resp.status = 201 then
        { result := .ok resp.id resp.url
            (cfg.site_url ++ "/wp-admin/post.php?post=" ++ toString resp.id ++ "&action=edit")
            ("Post published successfully to WordPress (Status: " ++ status ++ ")")
          warnings := w1 ++ w2, payload := some pd3, url := some url }
      else
        { result := .err ("WordPress API error: " ++ toString resp.status ++ " - " ++ resp.text)
          warnings := w1 ++ w2, payload := some pd3, url := some url }

/-- The publish-button flow of `main` (lines 2020-2046): optionally upload
the featured image first; on upload success feed `media_id` into
`publish_to_wordpress` as `featured_image_id`, on upload failure warn and
continue with `featured_media_id = None`.  Returns the publish trace and
the messages emitted by the upload step. -/
def publish_post_flow (p : Option WpConfig)
    (featured_asset : Option (String × String))
    (uploadResp postResp : HttpResponse) (md2html : String → String)
    (sess_cats sess_tags : List Term)
    (title content status : String) (categories tags : List String) :
    PublishTrace × List String :=
  let step :=
    match featured_asset with
    | none => (none, [])
    | some (fn, mt) =>
      match (upload_image_to_wordpress p uploadResp fn mt).result with
      | .ok mid _ msg => (some mid, [msg])
      | .err e =>
        (none, ["Failed to upload featured image: " ++ e,
                "Proceeding to publish post without featured image."])
  (publish_to_wordpress p md2html postResp sess_cats sess_tags title content
    status categories tags step.1, step.2)

/-- Splits a character list at the first occurrence of the close sequence
`"\n```"` (the lazy `(.*?)\n``` ` tail of the strict pattern under
`re.DOTALL`): returns the characters before it and the characters after
the four-character close. -/
def splitAtClose : List Char → Option (List Char × List Char)
  | [] => none
  | c :: r =>
    if startsChars "\n```".toList (c :: r) then
      some ([], (c :: r).drop 4)
    else
      match splitAtClose r with
      | some (a, b) => some (c :: a, b)
      | none => none

/-- One attempt of the strict pattern body at a fixed start of the
filename group: `([^\n]+)\n```(?:([a-zA-Z0-9]+))?\n(.*?)\n``` `.  The
greedy `[^\n]+` must run to the end of its line (any shorter split puts a
non-newline before the required `\n`), the optional language group must be
the maximal alphanumeric run followed by a newline, and the lazy content
ends at the first `"\n```"`.  Returns `(filename, content, remainder)`. -/
def strictBodyAt (r' : List Char) : Option (String × String × List Char) :=
  let fn := r'.takeWhile (fun c => c ≠ '\n')
  if fn = [] then none
  else
    let r1 := r'.drop fn.length
    if startsChars "\n```".toList r1 then
      let r2 := r1.drop 4
      let r3 := r2.drop (r2.takeWhile isAlnumAscii).length
      match r3 with
      | '\n' :: r4 =>
        match splitAtClose r4 with
        | some (content, rem) => some (String.mk fn, String.mk content, rem)
        | none => none
      | _ => none
    else none

/-- Backtracking over the greedy `\s*` between `FILE:` and the filename
group: Python tries the longest whitespace run first and shortens it on
failure.  `k` is the current candidate length of the run. -/
def tryStrictBody (r : List Char) : Nat → Option (String × String × List Char)
  | 0 => strictBodyAt r
  | k + 1 =>
    match strictBodyAt (r.drop (k + 1)) with
    | some res => some res
    | none => tryStrictBody r k

/-- Attempt the full strict pattern
`FILE:\s*([^\n]+)\n```(?:([a-zA-Z0-9]+))?\n(.*?)\n``` ` at the start of
`l` (the `FILE:` literal is case-sensitive here). -/
def matchStrictAt (l : List Char) : Option (String × String × List Char) :=
  if startsChars "FILE:".toList l then
    let r := l.drop 5
    tryStrictBody r (r.takeWhile isSpaceChar).length
  else none

/-- The scan loop of `re.findall` for the strict pattern: try the pattern
at every position left to right; a successful match is emitted and the
scan resumes after it.  `fuel` bounds the recursion (every step consumes
at least one character). -/
def findallStrictAux : Nat → List Char → List (String × String)
  | 0, _ => []
  | _, [] => []
  | fuel + 1, c :: rest =>
    match matchStrictAt (c :: rest) with
    | some (fn, content, rem) => (fn, content) :: findallStrictAux fuel rem
    | none => findallStrictAux fuel rest

/-- `re.findall(r'FILE:\s*([^\n]+)\n```(?:([a-zA-Z0-9]+))?\n(.*?)\n```',
content, re.DOTALL)` of line 662, keeping the `(filename, content)`
captures (the language capture is unused by the code). -/
def findallStrict (s : String) : List (String × String) :=
  findallStrictAux s.toList.length s.toList

/-- The strict-branch dict construction of lines 664-665:
`files[filename.strip()] = file_content.strip()` over the matches in
order. -/
def buildStrictFiles (ms : List (String × String)) : List (String × String) :=
  ms.foldl (fun files m => dictInsert files (pyStrip m.1) (pyStrip m.2)) []

/-- Length of a delimiter match of the lenient split pattern
`FILE:\s*[^\n]+` at a fixed whitespace-run length `k` (greedy `\s*` with
backtracking, longest first); returns `k` plus the filename-run length. -/
def tryLenientBody (r : List Char) : Nat → Option Nat
  | 0 =>
    let fn := r.takeWhile (fun c => c ≠ '\n')
    if fn = [] then none else some fn.length
  | k + 1 =>
    let fn := (r.drop (k + 1)).takeWhile (fun c => c ≠ '\n')
    if fn = [] then tryLenientBody r k else some (k + 1 + fn.length)

/-- Attempt the lenient delimiter pattern `FILE:\s*[^\n]+` (with
`re.IGNORECASE`, so the literal matches any casing) at the start of `l`;
returns the length of the match. -/
def lenientDelimLen (l : List Char) : Option Nat :=
  if startsChars "file:".toList ((l.take 5).map Char.toLower) then
    match tryLenientBody (l.drop 5) ((l.drop 5).takeWhile isSpaceChar).length with
    | some n => some (5 + n)
    | none => none
  else none

/-- `re.split(r'(FILE:\s*[^\n]+)', content, flags=re.IGNORECASE)` of line
669: pieces between matches interleaved with the captured delimiters
(empty pieces included, as in Python). -/
def splitLenientAux : Nat → List Char → List Char → List String
  | _, acc, [] => [String.mk acc.reverse]
  | 0, acc, l => [String.mk (acc.reverse ++ l)]
  | fuel + 1, acc, c :: rest =>
    match lenientDelimLen (c :: rest) with
    | some n =>
      String.mk acc.reverse :: String.mk ((c :: rest).take n) ::
        splitLenientAux fuel [] ((c :: rest).drop n)
    | none => splitLenientAux fuel (c :: acc) rest

/-- The lenient split of line 669. -/
def splitLenient (s : String) : List String :=
  splitLenientAux s.toList.length [] s.toList

/-- The accumulation loop of lines 671-684 over the split parts: a part
whose lowering starts with `file:` flushes the current file (Python
truthiness: only when the current filename is a non-empty string and the
content list is non-empty) and starts a new one named
`part.replace('FILE:', '').strip()`; any other part is appended to the
current content list; a final flush follows the loop. -/
def lenientLoop :
    List String → Option String → List String → List (String × String) →
      List (String × String)
  | [], cf, cc, files =>
    match cf with
    | some f =>
      if f ≠ "" ∧ cc ≠ [] then
        dictInsert files f (pyStrip (String.intercalate "\n" cc))
      else files
    | none => files
  | part :: parts, cf, cc, files =>
    if strStartsWith (strLower part) "file:" then
      let files' :=
        match cf with
        | some f =>
          if f ≠ "" ∧ cc ≠ [] then
            dictInsert files f (pyStrip (String.intercalate "\n" cc))
          else files
        | none => files
      lenientLoop parts (some (pyStrip (pyReplace part "FILE:" ""))) [] files'
    else
      lenientLoop parts cf (cc ++ [part]) files

/-- The code-fence cleanup of lines 686-690 applied to one file content:
drop the first and last line when the content both starts and ends with
three backticks, drop only the first line when it merely starts with them,
then strip. -/
def stripFences (content : String) : String :=
  let lines := (splitOnNl content.toList).map String.mk
  if strStartsWith content "```" ∧ strEndsWith content "```" then
    pyStrip (String.intercalate "\n" ((lines.drop 1).dropLast))
  else if strStartsWith content "```" then
    pyStrip (String.intercalate "\n" (lines.drop 1))
  else content

/-- The whole lenient branch of lines 667-690. -/
def lenientFiles (content : String) : List (String × String) :=
  (lenientLoop (splitLenient content) none [] []).map
    (fun p => (p.1, stripFences p.2))

/-- The placeholder files of lines 692-697. -/
def placeholderFiles : List (String × String) :=
  [("README.md", "# AI Generated Project\n\nProject generated by AI Content Agent Pro"),
   ("main.py", "# Main project file\nprint(\x27Hello, World!\x27)"),
   ("requirements.txt", "# Add your dependencies here")]

/-- `CompleteAIContentAgent.parse_project_files` (lines 658-699): strict
file-block extraction; when it finds nothing, the lenient split; when that
also finds nothing, the three placeholder files. -/
def parse_project_files (content : String) : List (String × String) :=
  let files := buildStrictFiles (findallStrict content)
  let files2 := if files = [] then lenientFiles content else files
  if files2 = [] then placeholderFiles else files2

/-! ## Helper lemmas -/

theorem dictInsert_ne_nil {α : Type} (d : List (String × α)) (k : String) (v : α) :
    dictInsert d k v ≠ [] := by
  unfold dictInsert
  split
  · next h =>
    intro hmap
    rw [List.map_eq_nil_iff] at hmap
    subst hmap
    simp at h
  · simp

theorem dictGet_find?_map_set_ne {α : Type} (k k' : String) (v : α)
    (t : List (String × α)) (h : k' ≠ k) :
    (t.map (fun p => if p.1 = k then (k, v) else p)).find? (fun p => p.1 = k') =
      t.find? (fun p => p.1 = k') := by
  induction t with
  | nil => rfl
  | cons p t ih =>
    by_cases hp : p.1 = k
    · simp only [List.map_cons, hp, if_pos, List.find?_cons]
      have h1 : ((k, v).1 = k') = False := by simp [Ne.symm h]
      have h2 : (p.1 = k') = False := by simp [hp, Ne.symm h]
      simp [h1, h2, ih]
    · simp only [List.map_cons, if_neg hp, List.find?_cons]
      by_cases hp' : p.1 = k'
      · simp [hp']
      · simp [hp', ih]

theorem dictGet_find?_map_set_self {α : Type} (k : String) (v : α)
    (t : List (String × α)) (h : t.any (fun p => p.1 = k) = true) :
    (t.map (fun p => if p.1 = k then (k, v) else p)).find? (fun p => p.1 = k) =
      some (k, v) := by
  induction t with
  | nil => simp at h
  | cons p t ih =>
    by_cases hp : p.1 = k
    · simp [hp, List.find?_cons]
    · simp only [List.any_cons, Bool.or_eq_true, decide_eq_true_eq] at h
      rcases h with h | h
      · exact absurd h hp
      · simp only [List.map_cons, if_neg hp, List.find?_cons]
        simp [hp, ih h]

theorem dictGet_dictInsert {α : Type} (d : List (String × α)) (k k' : String) (v : α) :
    dictGet (dictInsert d k v) k' = if k' = k then some v else dictGet d k' := by
  unfold dictInsert dictGet
  by_cases hk : k' = k
  · subst hk
    split
    · next hany => rw [dictGet_find?_map_set_self k' v d hany]; simp
    · next hany =>
      rw [List.find?_append]
      have hnone : d.find? (fun p => p.1 = k') = none := by
        rw [List.find?_eq_none]
        intro x hx hpx
        exact hany (List.any_eq_true.mpr ⟨x, hx, hpx⟩)
      simp [hnone]
  · simp only [if_neg hk]
    split
    · rw [dictGet_find?_map_set_ne k k' v d hk]
    · rw [List.find?_append]
      have hnone : List.find? (fun p => p.1 = k') [(k, v)] = none := by
        simp [List.find?_cons, Ne.symm hk]
      cases hfd : d.find? (fun p => p.1 = k') <;> simp [hnone, hfd]

theorem get_api_url_default (cfg : WpConfig) (hm : cfg.is_wpcom = false)
    (hq : cfg.use_query_params = none) (e : String) :
    get_api_url cfg e = cfg.site_url ++ "/wp-json" ++ e := by
  simp [get_api_url, hm, hq]

theorem get_api_url_qp (cfg : WpConfig) (hm : cfg.is_wpcom = false)
    (hq : cfg.use_query_params = some true) (e : String) :
    get_api_url cfg e = cfg.site_url ++ "/?rest_route=" ++ e := by
  simp [get_api_url, hm, hq]

/-! ## Shared concrete instances used by witnesses and counterexamples -/

/-- A concrete self-hosted configuration (the URL does not contain
`wordpress.com`). -/
def cfgEx : WpConfig := setup_wordpress "https://example.com" "admin" "pw"

/-- A response oracle for the two connection probes against
`https://example.com`: status/body `s1`/`t1` for the pretty-permalink URL,
`s2`/`t2` for the query-parameter fallback URL, a dummy response elsewhere;
the user object decodes with name `Alice`. -/
def netEx (s1 s2 : Nat) (t1 t2 : String) : String → HttpResponse :=
  fun url =>
    if url = "https://example.com/wp-json/wp/v2/users/me" then
      { status := s1, text := t1, name := "Alice", id := 0, url := "", terms := [] }
    else if url = "https://example.com/?rest_route=/wp/v2/users/me" then
      { status := s2, text := t2, name := "Alice", id := 0, url := "", terms := [] }
    else
      { status := 0, text := "", name := "", id := 0, url := "", terms := [] }

/-! ## Claims -/

/-- C1: for a self-hosted connection with the permalink mode not yet
detected, `test_wordpress_connection` probes the pretty form
`{site}/wp-json/wp/v2/users/me` first; a 200 sets `use_query_params` to
`False` and issues no fallback request; a 404 followed by a 200 on the
query-parameter fallback sets `use_query_params` to `True`, after which
every `_get_api_url` call returns `{site}/?rest_route={path}`. -/
theorem testConnection_permalink_detection (cfg : WpConfig)
    (net : String → HttpResponse)
    (hm : cfg.is_wpcom = false) (hq : cfg.use_query_params = none) :
    (get_api_url cfg "/wp/v2/users/me" = cfg.site_url ++ "/wp-json/wp/v2/users/me") ∧
    ((net (cfg.site_url ++ "/wp-json/wp/v2/users/me")).status = 200 →
      test_wordpress_connection (some cfg) net =
        (.ok ("Connected as " ++ (net (cfg.site_url ++ "/wp-json/wp/v2/users/me")).name),
         some { cfg with use_query_params := some false },
         [cfg.site_url ++ "/wp-json/wp/v2/users/me"])) ∧
    ((net (cfg.site_url ++ "/wp-json/wp/v2/users/me")).status = 404 →
     (net (cfg.site_url ++ "/?rest_route=/wp/v2/users/me")).status = 200 →
      test_wordpress_connection (some cfg) net =
        (.ok ("Connected as " ++
            (net (cfg.site_url ++ "/?rest_route=/wp/v2/users/me")).name ++
            " (using query parameter format)"),
         some { cfg with use_query_params := some true },
         [cfg.site_url ++ "/wp-json/wp/v2/users/me",
          cfg.site_url ++ "/?rest_route=/wp/v2/users/me"]) ∧
      (∀ path, get_api_url { cfg with use_query_params := some true } path =
        cfg.site_url ++ "/?rest_route=" ++ path)) := by
  have hlit : ("/wp-json" : String) ++ "/wp/v2/users/me" = "/wp-json/wp/v2/users/me" := by
    decide
  have hurl : get_api_url cfg "/wp/v2/users/me" =
      cfg.site_url ++ "/wp-json/wp/v2/users/me" := by
    rw [get_api_url_default cfg hm hq, String.append_assoc, hlit]
  refine ⟨hurl, ?_, ?_⟩
  · intro h200
    simp [test_wordpress_connection, hm, hurl, h200]
  · intro h404 h200
    refine ⟨?_, ?_⟩
    · simp [test_wordpress_connection, hm, hurl, h404, h200]
    · intro path
      exact get_api_url_qp { cfg with use_query_params := some true } hm rfl path

/-- C1 witness: a concrete 404-then-200 run against `https://example.com`
detects the query-parameter mode. -/
theorem testConnection_permalink_detection_witness :
    test_wordpress_connection (some cfgEx) (netEx 404 200 "" "") =
      (.ok "Connected as Alice (using query parameter format)",
       some { cfgEx with use_query_params := some true },
       ["https://example.com/wp-json/wp/v2/users/me",
        "https://example.com/?rest_route=/wp/v2/users/me"]) ∧
    get_api_url { cfgEx with use_query_params := some true } "/wp/v2/posts" =
      "https://example.com" ++ "/?rest_route=" ++ "/wp/v2/posts" := by
  have h := testConnection_permalink_detection cfgEx (netEx 404 200 "" "")
    (by decide) (by decide)
  have h2 := h.2.2 (by decide) (by decide)
  constructor
  · rw [h2.1]
    decide
  · rw [h2.2 "/wp/v2/posts"]
    decide

/-- C2 (code evaluation): with an empty `wordpress_config`,
`test_wordpress_connection`, `upload_image_to_wordpress` and
`publish_to_wordpress` all return the not-configured result object, but
`_get_terms_robust` (the `fetchTerms` operation) raises an uncaught
`KeyError('headers')` at line 173, contradicting the claim that no
operation propagates an unhandled exception. -/
theorem unconfigured_operations (net : String → HttpResponse)
    (r : HttpResponse) (md2html : String → String)
    (sc stg : List Term) (title content status : String)
    (categories tags : List String) (fid : Option Nat)
    (fn mt term_type : String) :
    test_wordpress_connection none net = (.err "WordPress not configured", none, []) ∧
    (upload_image_to_wordpress none r fn mt).result = .err "WordPress not configured" ∧
    (publish_to_wordpress none md2html r sc stg title content status
        categories tags fid).result = .err "WordPress not configured" ∧
    get_terms_robust none r term_type = .error (.keyError "headers") :=
  ⟨rfl, rfl, rfl, rfl⟩

/-- C3 counterexample: first probe 404, fallback 500 with empty body — the
resulting generic API error message reports only the fallback status and
does not include the first probe's 404. -/
theorem testConnection_fallback_error_hides_first_status :
    test_wordpress_connection (some cfgEx) (netEx 404 500 "" "") =
      (.err "WordPress API error: 500 - . Check if REST API is enabled and credentials are correct.",
       some cfgEx,
       ["https://example.com/wp-json/wp/v2/users/me",
        "https://example.com/?rest_route=/wp/v2/users/me"]) ∧
    strHasSub "WordPress API error: 500 - . Check if REST API is enabled and credentials are correct." "404" = false := by
  constructor
  · decide
  · decide

/-- C3 as amended: when the first probe returns 404 and the fallback
returns a status other than 200 and 401, the result is the generic API
error built from the fallback response only — its message carries the
fallback's status and body (the first probe's 404 status is not
included). -/
theorem testConnection_fallback_generic_error (cfg : WpConfig)
    (net : String → HttpResponse)
    (hm : cfg.is_wpcom = false) (hq : cfg.use_query_params = none)
    (h404 : (net (cfg.site_url ++ "/wp-json/wp/v2/users/me")).status = 404)
    (hne200 : (net (cfg.site_url ++ "/?rest_route=/wp/v2/users/me")).status ≠ 200)
    (hne401 : (net (cfg.site_url ++ "/?rest_route=/wp/v2/users/me")).status ≠ 401) :
    test_wordpress_connection (some cfg) net =
      (.err ("WordPress API error: " ++
          toString (net (cfg.site_url ++ "/?rest_route=/wp/v2/users/me")).status ++
          " - " ++ (net (cfg.site_url ++ "/?rest_route=/wp/v2/users/me")).text ++
          ". Check if REST API is enabled and credentials are correct."),
       some cfg,
       [cfg.site_url ++ "/wp-json/wp/v2/users/me",
        cfg.site_url ++ "/?rest_route=/wp/v2/users/me"]) := by
  have hlit : ("/wp-json" : String) ++ "/wp/v2/users/me" = "/wp-json/wp/v2/users/me" := by
    decide
  have hurl : get_api_url cfg "/wp/v2/users/me" =
      cfg.site_url ++ "/wp-json/wp/v2/users/me" := by
    rw [get_api_url_default cfg hm hq, String.append_assoc, hlit]
  simp [test_wordpress_connection, hm, hurl, h404, hne200, hne401]

/-- C3 witness: the amended behaviour at the concrete 404/500 run. -/
theorem testConnection_fallback_generic_error_witness :
    test_wordpress_connection (some cfgEx) (netEx 404 500 "nf" "boom") =
      (.err "WordPress API error: 500 - boom. Check if REST API is enabled and credentials are correct.",
       some cfgEx,
       ["https://example.com/wp-json/wp/v2/users/me",
        "https://example.com/?rest_route=/wp/v2/users/me"]) := by
  have h := testConnection_fallback_generic_error cfgEx (netEx 404 500 "nf" "boom")
    (by decide) (by decide) (by decide) (by decide) (by decide)
  rw [h]
  decide

/-- C8: a 401 on the first (pretty-form) probe is reported as an
authentication failure and the query-parameter fallback request is never
issued (exactly one URL is requested). -/
theorem testConnection_first_probe_401 (cfg : WpConfig)
    (net : String → HttpResponse)
    (hm : cfg.is_wpcom = false) (hq : cfg.use_query_params = none)
    (h401 : (net (cfg.site_url ++ "/wp-json/wp/v2/users/me")).status = 401) :
    test_wordpress_connection (some cfg) net =
      (.err "Authentication failed. Please check your username and application password.",
       some cfg,
       [cfg.site_url ++ "/wp-json/wp/v2/users/me"]) := by
  have hlit : ("/wp-json" : String) ++ "/wp/v2/users/me" = "/wp-json/wp/v2/users/me" := by
    decide
  have hurl : get_api_url cfg "/wp/v2/users/me" =
      cfg.site_url ++ "/wp-json/wp/v2/users/me" := by
    rw [get_api_url_default cfg hm hq, String.append_assoc, hlit]
  simp [test_wordpress_connection, hm, hurl, h401]

/-- C8 witness: concrete 401 run. -/
theorem testConnection_first_probe_401_witness :
    test_wordpress_connection (some cfgEx) (netEx 401 0 "" "") =
      (.err "Authentication failed. Please check your username and application password.",
       some cfgEx,
       ["https://example.com/wp-json/wp/v2/users/me"]) := by
  have h := testConnection_first_probe_401 cfgEx (netEx 401 0 "" "")
    (by decide) (by decide) (by decide)
  rw [h]
  decide

/-- C4: the resolution comprehension matches names against the cached
term set case-insensitively and exactly (membership characterisation);
when the cached ids are distinct the output has no duplicates; and the two
concrete resolutions behave as claimed. -/
theorem resolveTermIds_case_insensitive_unique :
    (∀ (names : List String) (cache : List Term),
      (cache.map Term.id).Nodup → (resolveTermIds names cache).Nodup) ∧
    (∀ (i : Nat) (names : List String) (cache : List Term),
      i ∈ resolveTermIds names cache ↔
        ∃ t, t ∈ cache ∧ t.id = i ∧ strLower t.name ∈ names.map strLower) ∧
    resolveTermIds ["News", "news"] [{ id := 3, name := "News" }] = [3] ∧
    resolveTermIds ["Unknown"] [{ id := 3, name := "News" }] = [] := by
  refine ⟨?_, ?_, by decide, by decide⟩
  · intro names cache h
    exact h.sublist ((List.filter_sublist cache).map Term.id)
  · intro i names cache
    simp only [resolveTermIds]
    constructor
    · intro hmem
      rcases List.mem_map.mp hmem with ⟨t, htf, rfl⟩
      rcases List.mem_filter.mp htf with ⟨ht, hp⟩
      exact ⟨t, ht, rfl, List.elem_iff.mp hp⟩
    · rintro ⟨t, ht, hid, hmem⟩
      subst hid
      exact List.mem_map.mpr ⟨t, List.mem_filter.mpr ⟨ht, List.elem_iff.mpr hmem⟩, rfl⟩

/-- C4 witness: duplicate-freedom applied at a concrete cache with
distinct ids. -/
theorem resolveTermIds_case_insensitive_unique_witness :
    (resolveTermIds ["news", "TECH"]
      [{ id := 3, name := "News" }, { id := 5, name := "Tech" }]).Nodup :=
  resolveTermIds_case_insensitive_unique.1 ["news", "TECH"]
    [{ id := 3, name := "News" }, { id := 5, name := "Tech" }] (by decide)

/-- C5 counterexample: self-hosted publish with `["News", "Unknown"]`
against a cache holding only `News` — the resolved id list is `[3]`, the
post is created, and **no** warning at all is emitted, so the unmatched
name `Unknown` is not reported (the not-found warning only fires when no
name resolves). -/
theorem publish_unmatched_name_not_reported :
    (publish_to_wordpress (some cfgEx) (fun s => s)
        { status := 201, text := "", name := "", id := 7, url := "u", terms := [] }
        [{ id := 3, name := "News" }] [] "T" "B" "draft" ["News", "Unknown"] []
        none).warnings = [] ∧
    (¬ ∃ w ∈ (publish_to_wordpress (some cfgEx) (fun s => s)
        { status := 201, text := "", name := "", id := 7, url := "u", terms := [] }
        [{ id := 3, name := "News" }] [] "T" "B" "draft" ["News", "Unknown"] []
        none).warnings, strHasSub w "Unknown" = true) ∧
    (publish_to_wordpress (some cfgEx) (fun s => s)
        { status := 201, text := "", name := "", id := 7, url := "u", terms := [] }
        [{ id := 3, name := "News" }] [] "T" "B" "draft" ["News", "Unknown"] []
        none).payload =
      some [("title", .str "T"), ("content", .str "B"), ("status", .str "draft"),
            ("format", .str "standard"), ("categories", .arr [3])] := by
  refine ⟨by decide, by decide, by decide⟩

/-- C5 as amended: unmatched names are dropped from the term list without
failing the publish (only resolved ids are sent and a 201 response yields
success), but a not-found warning is emitted only when *none* of the
requested names of that kind resolved — and it lists all requested names;
a list in which some names matched produces no report. -/
theorem publish_selfhosted_unmatched_terms (cfg : WpConfig)
    (hm : cfg.is_wpcom = false) (md2html : String → String)
    (resp : HttpResponse) (sc stg : List Term)
    (title content status : String) (categories tags : List String)
    (fid : Option Nat) :
    ((publish_to_wordpress (some cfg) md2html resp sc stg title content status
        categories tags fid).warnings =
      (if categories ≠ [] ∧ resolveTermIds categories sc = [] then
        [noCategoriesWarning categories] else []) ++
      (if tags ≠ [] ∧ resolveTermIds tags stg = [] then
        [noTagsWarning tags] else [])) ∧
    (resp.status = 201 →
      (publish_to_wordpress (some cfg) md2html resp sc stg title content status
          categories tags fid).result =
        .ok resp.id resp.url
          (cfg.site_url ++ "/wp-admin/post.php?post=" ++ toString resp.id ++ "&action=edit")
          ("Post published successfully to WordPress (Status: " ++ status ++ ")")) ∧
    (∀ pd, (publish_to_wordpress (some cfg) md2html resp sc stg title content
        status categories tags fid).payload = some pd →
      dictGet pd "categories" =
        if categories ≠ [] ∧ resolveTermIds categories sc ≠ [] then
          some (.arr (resolveTermIds categories sc))
        else none) := by
  refine ⟨?_, ?_, ?_⟩
  · by_cases h1 : categories = [] <;>
      by_cases h2 : resolveTermIds categories sc = [] <;>
        by_cases h3 : tags = [] <;>
          by_cases h4 : resolveTermIds tags stg = [] <;>
            simp [publish_to_wordpress, hm, apply_ite PublishTrace.warnings,
              h1, h2, h3, h4]
  · intro hst
    by_cases h1 : categories = [] <;>
      by_cases h2 : resolveTermIds categories sc = [] <;>
        by_cases h3 : tags = [] <;>
          by_cases h4 : resolveTermIds tags stg = [] <;>
            simp [publish_to_wordpress, hm, hst, apply_ite PublishTrace.result,
              h1, h2, h3, h4]
  · intro pd hpd
    by_cases h1 : categories = [] <;>
      by_cases h2 : resolveTermIds categories sc = [] <;>
        by_cases h3 : tags = [] <;>
          by_cases h4 : resolveTermIds tags stg = [] <;>
            by_cases h5 : fid.getD 0 = 0 <;>
              (simp [publish_to_wordpress, hm, apply_ite PublishTrace.payload,
                h1, h2, h3, h4, h5] at hpd
               subst pd
               simp [dictGet, List.find?, h1, h2])

/-- C5 witness: the amended behaviour at the counterexample input — some
names matched, so no warning, and only the resolved id is sent. -/
theorem publish_selfhosted_unmatched_terms_witness :
    (publish_to_wordpress (some cfgEx) (fun s => s)
        { status := 201, text := "", name := "", id := 7, url := "u", terms := [] }
        [{ id := 3, name := "News" }] [] "T" "B" "draft" ["News", "Unknown"] []
        none).warnings = [] ∧
    dictGet [("title", JVal.str "T"), ("content", JVal.str "B"),
        ("status", JVal.str "draft"), ("format", JVal.str "standard"),
        ("categories", JVal.arr [3])] "categories" = some (.arr [3]) := by
  have h := publish_selfhosted_unmatched_terms cfgEx (by decide) (fun s => s)
    { status := 201, text := "", name := "", id := 7, url := "u", terms := [] }
    [{ id := 3, name := "News" }] [] "T" "B" "draft" ["News", "Unknown"] [] none
  refine ⟨?_, ?_⟩
  · rw [h.1]
    decide
  · have h3 := h.2.2 [("title", JVal.str "T"), ("content", JVal.str "B"),
      ("status", JVal.str "draft"), ("format", JVal.str "standard"),
      ("categories", JVal.arr [3])] (by decide)
    rw [h3]
    decide

/-- A concrete WordPress.com configuration. -/
def cfgComEx : WpConfig := setup_wordpress "https://myblog.wordpress.com" "user" "token"

/-- C6: for every WordPress.com publish, the outgoing payload never
contains a `categories` field regardless of the requested category names
and of the session term caches; tags, when provided, are sent as one
comma-joined string; and a non-empty category request produces the
unsupported-categories warning. -/
theorem publish_wpcom_categories_never_sent (cfg : WpConfig)
    (hm : cfg.is_wpcom = true) (md2html : String → String)
    (resp : HttpResponse) (sc stg : List Term)
    (title content status : String) (categories tags : List String)
    (fid : Option Nat) :
    (∀ pd, (publish_to_wordpress (some cfg) md2html resp sc stg title content
        status categories tags fid).payload = some pd →
      dictGet pd "categories" = none ∧
      (tags ≠ [] →
        dictGet pd "tags" = some (.str (String.intercalate "," tags)))) ∧
    (categories ≠ [] →
      (publish_to_wordpress (some cfg) md2html resp sc stg title content status
        categories tags fid).warnings = [wpcomCategoriesWarning]) := by
  constructor
  · intro pd hpd
    by_cases h3 : tags = [] <;>
      by_cases h5 : fid.getD 0 = 0 <;>
        (simp [publish_to_wordpress, hm, apply_ite PublishTrace.payload,
          h3, h5] at hpd
         subst pd
         refine ⟨by simp [dictGet, List.find?], fun ht => ?_⟩
         first
         | exact absurd h3 ht
         | simp [dictGet, List.find?])
  · intro hc
    by_cases h3 : tags = [] <;>
      simp [publish_to_wordpress, hm, hc, h3, apply_ite PublishTrace.warnings]

/-- C6 witness: a concrete WordPress.com publish with
`categories = ["Tech"]` and `tags = ["a", "b"]`. -/
theorem publish_wpcom_categories_never_sent_witness :
    dictGet [("title", JVal.str "T"), ("content", JVal.str "B"),
        ("status", JVal.str "draft"), ("format", JVal.str "standard"),
        ("tags", JVal.str "a,b")] "categories" = none ∧
    dictGet [("title", JVal.str "T"), ("content", JVal.str "B"),
        ("status", JVal.str "draft"), ("format", JVal.str "standard"),
        ("tags", JVal.str "a,b")] "tags" =
      some (.str (String.intercalate "," ["a", "b"])) ∧
    (publish_to_wordpress (some cfgComEx) (fun s => s)
        { status := 200, text := "", name := "", id := 9, url := "p", terms := [] }
        [] [] "T" "B" "draft" ["Tech"] ["a", "b"] none).warnings =
      [wpcomCategoriesWarning] := by
  have h := publish_wpcom_categories_never_sent cfgComEx (by decide) (fun s => s)
    { status := 200, text := "", name := "", id := 9, url := "p", terms := [] }
    [] [] "T" "B" "draft" ["Tech"] ["a", "b"] none
  have hp := h.1 [("title", JVal.str "T"), ("content", JVal.str "B"),
    ("status", JVal.str "draft"), ("format", JVal.str "standard"),
    ("tags", JVal.str "a,b")] (by decide)
  exact ⟨hp.1, hp.2 (by decide), h.2 (by decide)⟩

/-- C7 counterexample: a media upload answered with 201 and media id `0`
is reported as a success carrying that id, yet the subsequent post payload
contains no `featured_media` field (the Python truthiness test
`if featured_image_id:` treats id 0 as absent), contradicting the claim
that a 201 upload's id is always included. -/
theorem publish_flow_zero_media_id_not_included :
    (upload_image_to_wordpress (some cfgEx)
        { status := 201, text := "", name := "", id := 0, url := "", terms := [] }
        "a.png" "image/png").result =
      .ok 0 "" "Image \x27a.png\x27 uploaded successfully to media library." ∧
    (publish_post_flow (some cfgEx) (some ("a.png", "image/png"))
        { status := 201, text := "", name := "", id := 0, url := "", terms := [] }
        { status := 201, text := "", name := "", id := 7, url := "u", terms := [] }
        (fun s => s) [] [] "T" "B" "draft" [] []).1.payload =
      some [("title", .str "T"), ("content", .str "B"), ("status", .str "draft"),
            ("format", .str "standard")] :=
  ⟨by decide, by decide⟩

/-- C7 as amended: in a publish attempt with a featured image, a 201
upload whose media id is nonzero puts that id into the post payload as
`featured_media`; an upload answered with any other status leaves the post
creation intact — the proceed-without-image warning is emitted, the
payload has no `featured_media` field, and a 201 post response still
yields a success result. -/
theorem publish_flow_media_failure_nonfatal (cfg : WpConfig)
    (hm : cfg.is_wpcom = false) (fn mt : String)
    (uploadResp postResp : HttpResponse) (md2html : String → String)
    (sc stg : List Term) (title content status : String)
    (categories tags : List String) :
    (uploadResp.status = 201 → uploadResp.id ≠ 0 →
      ∀ pd, (publish_post_flow (some cfg) (some (fn, mt)) uploadResp postResp
          md2html sc stg title content status categories tags).1.payload = some pd →
        dictGet pd "featured_media" = some (.num uploadResp.id)) ∧
    (uploadResp.status ≠ 201 →
      "Proceeding to publish post without featured image." ∈
        (publish_post_flow (some cfg) (some (fn, mt)) uploadResp postResp
          md2html sc stg title content status categories tags).2 ∧
      (∀ pd, (publish_post_flow (some cfg) (some (fn, mt)) uploadResp postResp
          md2html sc stg title content status categories tags).1.payload = some pd →
        dictGet pd "featured_media" = none) ∧
      (postResp.status = 201 →
        (publish_post_flow (some cfg) (some (fn, mt)) uploadResp postResp
          md2html sc stg title content status categories tags).1.result =
          .ok postResp.id postResp.url
            (cfg.site_url ++ "/wp-admin/post.php?post=" ++ toString postResp.id ++ "&action=edit")
            ("Post published successfully to WordPress (Status: " ++ status ++ ")"))) := by
  constructor
  · intro hu hid pd hpd
    by_cases h1 : categories = [] <;>
      by_cases h2 : resolveTermIds categories sc = [] <;>
        by_cases h3 : tags = [] <;>
          by_cases h4 : resolveTermIds tags stg = [] <;>
            (simp [publish_post_flow, upload_image_to_wordpress,
              publish_to_wordpress, hm, hu, hid,
              apply_ite PublishTrace.payload, h1, h2, h3, h4] at hpd
             subst pd
             simp [dictGet, List.find?])
  · intro hu
    refine ⟨?_, ?_, ?_⟩
    · simp [publish_post_flow, upload_image_to_wordpress, hm, hu]
    · intro pd hpd
      by_cases h1 : categories = [] <;>
        by_cases h2 : resolveTermIds categories sc = [] <;>
          by_cases h3 : tags = [] <;>
            by_cases h4 : resolveTermIds tags stg = [] <;>
              (simp [publish_post_flow, upload_image_to_wordpress,
                publish_to_wordpress, hm, hu,
                apply_ite PublishTrace.payload, h1, h2, h3, h4] at hpd
               subst pd
               simp [dictGet, List.find?])
    · intro hp
      by_cases h1 : categories = [] <;>
        by_cases h2 : resolveTermIds categories sc = [] <;>
          by_cases h3 : tags = [] <;>
            by_cases h4 : resolveTermIds tags stg = [] <;>
              simp [publish_post_flow, upload_image_to_wordpress,
                publish_to_wordpress, hm, hu, hp,
                apply_ite PublishTrace.result, h1, h2, h3, h4]

/-- C7 witness: concrete runs of both amended branches — a 201 upload with
id 42 lands in the payload; a 500 upload warns and the post is still
created. -/
theorem publish_flow_media_failure_nonfatal_witness :
    dictGet [("title", JVal.str "T"), ("content", JVal.str "B"),
        ("status", JVal.str "draft"), ("format", JVal.str "standard"),
        ("featured_media", JVal.num 42)] "featured_media" =
      some (.num 42) ∧
    "Proceeding to publish post without featured image." ∈
      (publish_post_flow (some cfgEx) (some ("a.png", "image/png"))
        { status := 500, text := "err", name := "", id := 0, url := "", terms := [] }
        { status := 201, text := "", name := "", id := 7, url := "u", terms := [] }
        (fun s => s) [] [] "T" "B" "draft" [] []).2 ∧
    (publish_post_flow (some cfgEx) (some ("a.png", "image/png"))
        { status := 500, text := "err", name := "", id := 0, url := "", terms := [] }
        { status := 201, text := "", name := "", id := 7, url := "u", terms := [] }
        (fun s => s) [] [] "T" "B" "draft" [] []).1.result =
      .ok 7 "u" "https://example.com/wp-admin/post.php?post=7&action=edit"
        "Post published successfully to WordPress (Status: draft)" := by
  have h1 := (publish_flow_media_failure_nonfatal cfgEx (by decide) "a.png"
    "image/png"
    { status := 201, text := "", name := "", id := 42, url := "m", terms := [] }
    { status := 201, text := "", name := "", id := 7, url := "u", terms := [] }
    (fun s => s) [] [] "T" "B" "draft" [] []).1 (by decide) (by decide)
    [("title", JVal.str "T"), ("content", JVal.str "B"),
     ("status", JVal.str "draft"), ("format", JVal.str "standard"),
     ("featured_media", JVal.num 42)] (by decide)
  have h2 := (publish_flow_media_failure_nonfatal cfgEx (by decide) "a.png"
    "image/png"
    { status := 500, text := "err", name := "", id := 0, url := "", terms := [] }
    { status := 201, text := "", name := "", id := 7, url := "u", terms := [] }
    (fun s => s) [] [] "T" "B" "draft" [] []).2 (by decide)
  refine ⟨h1, h2.1, ?_⟩
  have h3 := h2.2.2 (by decide)
  rw [h3]
  decide

/-- C9: a self-hosted media upload sends its single POST with the header
set of the connection copied and overridden — `Content-Type` is the
asset's MIME type and `Content-Disposition` is the attachment header for
the given filename, while the request still carries the original
`Authorization` — and after the call (success or failure) the stored
configuration is unchanged: its shared header set still holds the JSON
content type and the original Basic `Authorization` header. -/
theorem upload_media_headers_single_request (url u pw : String)
    (h : strHasSub (strLower url) "wordpress.com" = false)
    (resp : HttpResponse) (fn mt : String) :
    (upload_image_to_wordpress (some (setup_wordpress url u pw)) resp fn mt).config =
      some (setup_wordpress url u pw) ∧
    (∃ req, (upload_image_to_wordpress (some (setup_wordpress url u pw)) resp
        fn mt).request = some req ∧
      req.1 = get_api_url (setup_wordpress url u pw) "/wp/v2/media" ∧
      dictGet req.2 "Content-Type" = some mt ∧
      dictGet req.2 "Content-Disposition" =
        some ("attachment; filename=\"" ++ fn ++ "\"") ∧
      dictGet req.2 "Authorization" =
        some ("Basic " ++ b64encode (u ++ ":" ++ pw))) ∧
    dictGet (setup_wordpress url u pw).headers "Content-Type" =
      some "application/json" ∧
    dictGet (setup_wordpress url u pw).headers "Authorization" =
      some ("Basic " ++ b64encode (u ++ ":" ++ pw)) := by
  have hwp : (setup_wordpress url u pw).is_wpcom = false := by
    simp [setup_wordpress, h]
  have hhd : (setup_wordpress url u pw).headers =
      [("Content-Type", "application/json"),
       ("Authorization", "Basic " ++ b64encode (u ++ ":" ++ pw))] := by
    simp [setup_wordpress, h]
  have hcfg : (upload_image_to_wordpress (some (setup_wordpress url u pw)) resp
      fn mt).config = some (setup_wordpress url u pw) := by
    by_cases hr : resp.status = 201 <;>
      simp [upload_image_to_wordpress, hwp, hr]
  have hreq : (upload_image_to_wordpress (some (setup_wordpress url u pw)) resp
      fn mt).request =
      some (get_api_url (setup_wordpress url u pw) "/wp/v2/media",
        [("Content-Type", mt),
         ("Authorization", "Basic " ++ b64encode (u ++ ":" ++ pw)),
         ("Content-Disposition", "attachment; filename=\"" ++ fn ++ "\"")]) := by
    by_cases hr : resp.status = 201 <;>
      simp [upload_image_to_wordpress, hwp, hhd, hr, dictInsert]
  refine ⟨hcfg, ⟨_, hreq, rfl, ?_, ?_, ?_⟩, ?_, ?_⟩
  · simp [dictGet, List.find?]
  · simp [dictGet, List.find?]
  · simp [dictGet, List.find?]
  · rw [hhd]; simp [dictGet, List.find?]
  · rw [hhd]; simp [dictGet, List.find?]

/-- C9 witness: the frame property at a concrete failing upload. -/
theorem upload_media_headers_single_request_witness :
    (upload_image_to_wordpress
        (some (setup_wordpress "https://example.com" "admin" "pw"))
        { status := 500, text := "err", name := "", id := 0, url := "", terms := [] }
        "i.png" "image/png").config =
      some (setup_wordpress "https://example.com" "admin" "pw") ∧
    (∃ req, (upload_image_to_wordpress
        (some (setup_wordpress "https://example.com" "admin" "pw"))
        { status := 500, text := "err", name := "", id := 0, url := "", terms := [] }
        "i.png" "image/png").request = some req ∧
      req.1 = get_api_url (setup_wordpress "https://example.com" "admin" "pw")
        "/wp/v2/media" ∧
      dictGet req.2 "Content-Type" = some "image/png" ∧
      dictGet req.2 "Content-Disposition" =
        some ("attachment; filename=\"" ++ "i.png" ++ "\"") ∧
      dictGet req.2 "Authorization" =
        some ("Basic " ++ b64encode ("admin" ++ ":" ++ "pw"))) ∧
    dictGet (setup_wordpress "https://example.com" "admin" "pw").headers
      "Content-Type" = some "application/json" ∧
    dictGet (setup_wordpress "https://example.com" "admin" "pw").headers
      "Authorization" = some ("Basic " ++ b64encode ("admin" ++ ":" ++ "pw")) :=
  upload_media_headers_single_request "https://example.com" "admin" "pw"
    (by decide)
    { status := 500, text := "err", name := "", id := 0, url := "", terms := [] }
    "i.png" "image/png"

/-- Folding strict matches into the file dict never empties a non-empty
accumulator. -/
theorem foldl_dictInsert_ne_nil (ms : List (String × String))
    (d : List (String × String)) (hd : d ≠ []) :
    ms.foldl (fun files m => dictInsert files (pyStrip m.1) (pyStrip m.2)) d ≠ [] := by
  induction ms generalizing d with
  | nil => exact hd
  | cons m ms ih => exact ih _ (dictInsert_ne_nil _ _ _)

/-- A non-empty strict match list builds a non-empty file dict. -/
theorem buildStrictFiles_ne_nil (ms : List (String × String)) (h : ms ≠ []) :
    buildStrictFiles ms ≠ [] := by
  cases ms with
  | nil => exact absurd rfl h
  | cons m ms =>
    show (m :: ms).foldl _ [] ≠ []
    rw [List.foldl_cons]
    exact foldl_dictInsert_ne_nil ms _ (dictInsert_ne_nil _ _ _)

/-- C10: `parse_project_files` returns a non-empty mapping on every input;
when the strict pattern finds file blocks, the result is exactly those
blocks with stripped filenames and contents; when neither the strict
pattern nor the lenient split extracts any file, the result is exactly the
three placeholder files. -/
theorem parse_project_files_total_spec :
    (∀ content, parse_project_files content ≠ []) ∧
    (∀ content, findallStrict content ≠ [] →
      parse_project_files content =
        (findallStrict content).foldl
          (fun files m => dictInsert files (pyStrip m.1) (pyStrip m.2)) []) ∧
    (∀ content, findallStrict content = [] → lenientFiles content = [] →
      parse_project_files content = placeholderFiles) := by
  refine ⟨?_, ?_, ?_⟩
  · intro content
    by_cases hb : buildStrictFiles (findallStrict content) = [] <;>
      by_cases hl : lenientFiles content = [] <;>
        simp [parse_project_files, hb, hl, placeholderFiles]
  · intro content h
    have hb := buildStrictFiles_ne_nil _ h
    simp only [parse_project_files, if_neg hb]
    rfl
  · intro content h1 h2
    simp [parse_project_files, buildStrictFiles, h1, h2]

/-- C10 witness: a block-free input yields the placeholders; a single
strict file block yields exactly that file with stripped content. -/
theorem parse_project_files_total_spec_witness :
    parse_project_files "no file blocks here" = placeholderFiles ∧
    parse_project_files "FILE: a.py\n```python\nprint(1)\n```" =
      [("a.py", "print(1)")] := by
  constructor
  · exact parse_project_files_total_spec.2.2 "no file blocks here"
      (by decide) (by decide)
  · have h := parse_project_files_total_spec.2.1
      "FILE: a.py\n```python\nprint(1)\n```" (by decide)
    rw [h]
    decide

end ContentGen
